import Mathlib

/-!
Verification development for the places query service
(`app/services/places_service.py` of the `map_api` repository).

The service builds parameterized SQL executed on PostgreSQL/PostGIS.  The
embedding models:

* rows of the `places` table (`Row`), with the JSONB `properties` column as an
  association list of string keys to scalar JSON values (`JVal`; nested
  arrays/objects are not needed by any filter the service generates);
* PostgreSQL's three-valued boolean logic (`SBool := Option Bool`, `none`
  being SQL NULL), the `->>` text extraction operator, and the `::int` /
  `::boolean` text casts, which RAISE an error on malformed input;
* Python `float()` parsing (sign, decimal digits with optional fraction and
  exponent, `inf`/`infinity`/`nan`; PEP 515 underscore separators and
  non-ASCII digits are not modelled) as `parsePyFloat`;
* `ST_Within(point, ST_MakeEnvelope(a, b, c, d, 4326))`: per PostGIS/OGC
  semantics a point is *within* a polygon iff it intersects the polygon's
  interior, so a point exactly on the envelope boundary is NOT within —
  containment is strict;
* the query builder `build_places_query` (conditions are kept as a structured
  list `Cond` whose rendering `condText` reproduces the exact SQL fragments of
  the source, with parameters kept separate), and the three operations
  `get_places`, `get_cities`, `get_districts` over a database modelled as a
  `List Row` (store order = list order; `LIMIT 1` without `ORDER BY` is
  modelled as the first matching row in store order).
-/

/-- Scalar JSON value stored in the `properties` JSONB column. -/
inductive JVal where
  | null : JVal
  | b : Bool → JVal
  | i : Int → JVal
  | s : String → JVal
deriving DecidableEq, Repr

/-- A row of the `places` table.  The loader guarantees non-null `id`, `name`,
`category`, `city` and a non-null geometry point (`lng`, `lat`); `address` is
nullable.  Coordinates are modelled as rationals (exact values of the stored
float8 coordinates). -/
structure Row where
  id : String
  name : String
  address : Option String
  category : String
  city : String
  lng : ℚ
  lat : ℚ
  properties : List (String × JVal)
deriving DecidableEq, Repr

/-- JSONB `->>` text extraction: `properties->>'k'`.  A missing key and a JSON
null both yield SQL NULL; booleans and numbers are rendered as their JSON
text. -/
def jsonbText (props : List (String × JVal)) (k : String) : Option String :=
  match props.lookup k with
  | none => none
  | some JVal.null => none
  | some (JVal.b true) => some "true"
  | some (JVal.b false) => some "false"
  | some (JVal.i n) => some (toString n)
  | some (JVal.s v) => some v

/-- Shorthand for `row.properties->>'k'`. -/
def propText (r : Row) (k : String) : Option String :=
  jsonbText r.properties k

/-- SQL three-valued boolean: `none` is SQL NULL. -/
abbrev SBool := Option Bool

/-- SQL `AND` (three-valued). -/
def sAnd : SBool → SBool → SBool
  | some false, _ => some false
  | _, some false => some false
  | some true, some true => some true
  | _, _ => none

/-- SQL `OR` (three-valued). -/
def sOr : SBool → SBool → SBool
  | some true, _ => some true
  | _, some true => some true
  | some false, some false => some false
  | _, _ => none

/-- SQL `NOT` (three-valued). -/
def sNot : SBool → SBool
  | some b => some (!b)
  | none => none

/-- Errors raised while building or executing a query.  `valueError` models a
Python `ValueError` raised by the builder (malformed bbox, missing city);
`castError` models a PostgreSQL cast failure aborting query execution. -/
inductive QErr where
  | valueError : String → QErr
  | castError : String → QErr
deriving DecidableEq, Repr

/-- Decimal value of a digit list; `none` unless it is one or more digits. -/
def digitsToNat : List Char → Option Nat
  | [] => none
  | cs =>
    if cs.all Char.isDigit then
      some (cs.foldl (fun a c => a * 10 + (c.toNat - 48)) 0)
    else none

/-- Whitespace trim on both ends, on the character list of a string (models
Python `str.strip()` and PostgreSQL's input trimming). -/
def trimChars (cs : List Char) : List Char :=
  ((cs.dropWhile Char.isWhitespace).reverse.dropWhile Char.isWhitespace).reverse

/-- Lowercase map on the character list of a string (`str.lower()`). -/
def lowerChars (cs : List Char) : List Char :=
  cs.map Char.toLower

/-- Code-point comparison of strings, modelling the deterministic
`ORDER BY` on a text key. -/
def charListLe : List Char → List Char → Bool
  | [], _ => true
  | _ :: _, [] => false
  | a :: as, b :: bs =>
    if a.toNat < b.toNat then true
    else if b.toNat < a.toNat then false
    else charListLe as bs

/-- String comparison used for sorted grouped output. -/
def strLe (a b : String) : Bool :=
  charListLe a.data b.data

/-- Split a character list on commas (Python `str.split(",")`: an empty
input yields one empty part, adjacent commas yield empty parts). -/
def splitComma : List Char → List Char → List (List Char)
  | [], acc => [acc.reverse]
  | c :: cs, acc =>
    if c = ',' then acc.reverse :: splitComma cs []
    else splitComma cs (c :: acc)

/-- PostgreSQL text-to-`int4` cast: optional surrounding whitespace, optional
sign, one or more digits, int4 range check.  Anything else raises. -/
def pgParseInt (s : String) : Option Int :=
  let t := trimChars s.data
  let signed : Bool × List Char :=
    match t with
    | '-' :: r => (true, r)
    | '+' :: r => (false, r)
    | r => (false, r)
  match digitsToNat signed.2 with
  | some n =>
    let v : Int := if signed.1 then -(n : Int) else (n : Int)
    if -2147483648 ≤ v ∧ v ≤ 2147483647 then some v else none
  | none => none

/-- PostgreSQL text-to-`boolean` cast: case-insensitive, whitespace-trimmed,
accepting the documented spellings and their unambiguous shortenings. -/
def pgParseBool (s : String) : Option Bool :=
  let t := String.mk (lowerChars (trimChars s.data))
  if t ∈ ["t", "tr", "tru", "true", "y", "ye", "yes", "on", "1"] then
    some true
  else if t ∈ ["f", "fa", "fal", "fals", "false", "n", "no", "of", "off", "0"] then
    some false
  else none

/-- SQL cast `(text)::int`: NULL casts to NULL, malformed text raises. -/
def castInt (t : Option String) : Except QErr (Option Int) :=
  match t with
  | none => .ok none
  | some s =>
    match pgParseInt s with
    | some n => .ok (some n)
    | none => .error (.castError ("invalid input syntax for type integer: \"" ++ s ++ "\""))

/-- SQL cast `(text)::boolean`: NULL casts to NULL, malformed text raises. -/
def castBool (t : Option String) : Except QErr (Option Bool) :=
  match t with
  | none => .ok none
  | some s =>
    match pgParseBool s with
    | some b => .ok (some b)
    | none => .error (.castError ("invalid input syntax for type boolean: \"" ++ s ++ "\""))

/-- Value of a Python `float`: finite rational, signed infinity, or NaN. -/
inductive PyFloat where
  | fin : ℚ → PyFloat
  | posInf : PyFloat
  | negInf : PyFloat
  | nan : PyFloat
deriving DecidableEq, Repr

/-- IEEE-style strict order on float values (`nan` compares false). -/
def pfLt : PyFloat → PyFloat → Bool
  | PyFloat.fin a, PyFloat.fin b => a < b
  | PyFloat.negInf, PyFloat.fin _ => true
  | PyFloat.fin _, PyFloat.posInf => true
  | PyFloat.negInf, PyFloat.posInf => true
  | _, _ => false

/-- Split a character list at the first occurrence of `c`. -/
def splitOnceChar (c : Char) : List Char → Option (List Char × List Char)
  | [] => none
  | x :: xs =>
    if x = c then some ([], xs)
    else
      match splitOnceChar c xs with
      | none => none
      | some p => some (x :: p.1, p.2)

/-- Mantissa of a Python float literal: digits with an optional decimal point,
at least one digit overall.  Returned as an exact numerator/denominator pair
(the denominator a power of ten). -/
def parseMantissa (cs : List Char) : Option (Nat × Nat) :=
  match splitOnceChar '.' cs with
  | none => (digitsToNat cs).map (fun n => (n, 1))
  | some (ip, fp) =>
    if ip.all Char.isDigit && fp.all Char.isDigit && (!ip.isEmpty || !fp.isEmpty) then
      some (ip.foldl (fun a c => a * 10 + (c.toNat - 48)) 0 * 10 ^ fp.length +
          fp.foldl (fun a c => a * 10 + (c.toNat - 48)) 0,
        10 ^ fp.length)
    else none

/-- Scale an exact numerator/denominator pair by a power of ten (the float
literal's exponent part). -/
def scaleByExp (num den : Nat) : Int → Nat × Nat
  | Int.ofNat k => (num * 10 ^ k, den)
  | Int.negSucc k => (num, den * 10 ^ (k + 1))

/-- Exponent part of a Python float literal: optional sign, digits. -/
def parseExp (cs : List Char) : Option Int :=
  let signed : Bool × List Char :=
    match cs with
    | '-' :: r => (true, r)
    | '+' :: r => (false, r)
    | r => (false, r)
  (digitsToNat signed.2).map (fun n => if signed.1 then -(n : Int) else (n : Int))

/-- Python `float(s)`: optional surrounding whitespace, optional sign, then a
decimal literal with optional fraction and exponent, or `inf`/`infinity`/`nan`
(case-insensitive). -/
def parsePyFloat (s : String) : Option PyFloat :=
  let t := lowerChars (trimChars s.data)
  let signed : Bool × List Char :=
    match t with
    | '-' :: r => (true, r)
    | '+' :: r => (false, r)
    | r => (false, r)
  let neg := signed.1
  let rest := signed.2
  if rest = "inf".data || rest = "infinity".data then
    some (if neg then PyFloat.negInf else PyFloat.posInf)
  else if rest = "nan".data then
    some PyFloat.nan
  else
    match splitOnceChar 'e' rest with
    | none =>
      (parseMantissa rest).map (fun p =>
        PyFloat.fin (mkRat (if neg then -(p.1 : Int) else (p.1 : Int)) p.2))
    | some (mant, ex) =>
      match parseMantissa mant, parseExp ex with
      | some p, some e =>
        some (PyFloat.fin (mkRat
          (if neg then -((scaleByExp p.1 p.2 e).1 : Int) else ((scaleByExp p.1 p.2 e).1 : Int))
          (scaleByExp p.1 p.2 e).2))
      | _, _ => none

/-- Parse `bbox.split(",")` into exactly four Python floats
(`min_lng, min_lat, max_lng, max_lat = map(float, parts)`). -/
def parseBbox (s : String) : Option (PyFloat × PyFloat × PyFloat × PyFloat) :=
  match splitComma s.data [] with
  | [a, b, c, d] =>
    match parsePyFloat (String.mk a), parsePyFloat (String.mk b),
        parsePyFloat (String.mk c), parsePyFloat (String.mk d) with
    | some x1, some y1, some x2, some y2 => some (x1, y1, x2, y2)
    | _, _, _, _ => none
  | _ => none

/-- Transient filter-criteria value object of one `/api/places` request,
mirroring the parameters of `build_places_query` (a `None` category and an
empty list behave identically, so the category list alone suffices). -/
structure FilterCriteria where
  category : List String := []
  city : Option String := none
  bbox : Option String := none
  has_diaper_table : Option String := none
  has_parking : Option String := none
  include_outdated : Bool := false
deriving DecidableEq, Repr

/-- SQL parameter value passed positionally alongside the statement. -/
inductive PVal where
  | str : String → PVal
  | num : PyFloat → PVal
deriving DecidableEq, Repr

/-- One condition emitted by `build_places_query`, with its parameter values
attached (the source appends the matching values to `params` as it appends
each condition string, so text and values always travel together). -/
inductive Cond where
  | freshness : Cond
  | categoryIn : List String → Cond
  | cityEq : String → Cond
  | bboxWithin : PyFloat → PyFloat → PyFloat → PyFloat → Cond
  | diaperPositive : Cond
  | diaperZeroOrNull : Cond
  | parkingOr : Cond
  | parkingNotOr : Cond
deriving DecidableEq, Repr

/-- The base projection of `build_places_query` (exact source text). -/
def base_query : String :=
  "\n        SELECT \n            id,\n            name,\n            address,\n            category,\n            city,\n            ST_Y(geom) AS lat,\n            ST_X(geom) AS lng,\n            properties\n        FROM places\n        WHERE 1=1\n    "

/-- SQL text of one condition (exact source fragments; `\x27` is the single
quote character). -/
def condText : Cond → String
  | Cond.freshness =>
    "(properties->>\x27data_status\x27 IS NULL OR properties->>\x27data_status\x27 != \x27outdated\x27)"
  | Cond.categoryIn vs =>
    "category IN (" ++ String.intercalate "," (List.replicate vs.length "%s") ++ ")"
  | Cond.cityEq _ => "city = %s"
  | Cond.bboxWithin _ _ _ _ => "ST_Within(geom, ST_MakeEnvelope(%s, %s, %s, %s, 4326))"
  | Cond.diaperPositive => "(properties->>\x27diaper_table_count\x27)::int > 0"
  | Cond.diaperZeroOrNull =>
    "((properties->>\x27diaper_table_count\x27)::int = 0 OR properties->>\x27diaper_table_count\x27 IS NULL)"
  | Cond.parkingOr =>
    "\n                (\n                    (properties->>\x27has_parking\x27)::boolean = true\n                    OR (properties->>\x27parking\x27)::boolean = true\n                    OR (properties->>\x27parking_count\x27)::int > 0\n                )\n            "
  | Cond.parkingNotOr =>
    "\n                NOT (\n                    (properties->>\x27has_parking\x27)::boolean = true\n                    OR (properties->>\x27parking\x27)::boolean = true\n                    OR (properties->>\x27parking_count\x27)::int > 0\n                )\n            "

/-- Positional parameter values contributed by one condition, in source
order. -/
def condParams : Cond → List PVal
  | Cond.categoryIn vs => vs.map PVal.str
  | Cond.cityEq v => [PVal.str v]
  | Cond.bboxWithin a b c d => [PVal.num a, PVal.num b, PVal.num c, PVal.num d]
  | _ => []

/-- Error message of the `ValueError` raised for a malformed bbox (exact
source text, which interpolates the raw offending value). -/
def bboxErrMsg (s : String) : String :=
  "bbox 格式錯誤: " ++ s ++ "，應為 minLng,minLat,maxLng,maxLat"

/-- Structured body of `build_places_query`: the ordered condition list.
Branch order and truthiness tests (`if bbox:` etc. treat `""` as absent)
mirror the source. -/
def buildConds (c : FilterCriteria) : Except QErr (List Cond) :=
  let c1 : List Cond := if c.include_outdated then [] else [Cond.freshness]
  let c2 : List Cond := if c.category.isEmpty then [] else [Cond.categoryIn c.category]
  let c3 : List Cond :=
    match c.city with
    | some s => if s = "" then [] else [Cond.cityEq s]
    | none => []
  let c4 : Except QErr (List Cond) :=
    match c.bbox with
    | some s =>
      if s = "" then .ok []
      else
        match parseBbox s with
        | some (x1, y1, x2, y2) => .ok [Cond.bboxWithin x1 y1 x2 y2]
        | none => .error (.valueError (bboxErrMsg s))
    | none => .ok []
  let c5 : List Cond :=
    match c.has_diaper_table with
    | some s =>
      if s = "1" then [Cond.diaperPositive]
      else if s = "0" then [Cond.diaperZeroOrNull]
      else []
    | none => []
  let c6 : List Cond :=
    match c.has_parking with
    | some s =>
      if s = "1" then [Cond.parkingOr]
      else if s = "0" then [Cond.parkingNotOr]
      else []
    | none => []
  match c4 with
  | .error e => .error e
  | .ok cb => .ok (c1 ++ c2 ++ c3 ++ cb ++ c5 ++ c6)

/-- Render the assembled statement exactly as the source does
(`base_query += " AND " + " AND ".join(conditions)`). -/
def renderQuery (conds : List Cond) : String :=
  if conds.isEmpty then base_query
  else base_query ++ " AND " ++ String.intercalate " AND " (conds.map condText)

/-- The query builder: returns the SQL text and the positional parameter
list, or raises `ValueError` on a malformed bbox. -/
def build_places_query (c : FilterCriteria) : Except QErr (String × List PVal) :=
  (buildConds c).map (fun conds => (renderQuery conds, conds.flatMap condParams))

/-- Evaluation of the parking OR-expression
`(properties->>'has_parking')::boolean = true OR (properties->>'parking')::boolean = true
OR (properties->>'parking_count')::int > 0` under SQL three-valued logic. -/
def evalParkingOr (r : Row) : Except QErr SBool :=
  match castBool (propText r "has_parking") with
  | .error e => .error e
  | .ok hp =>
    match castBool (propText r "parking") with
    | .error e => .error e
    | .ok p =>
      match castInt (propText r "parking_count") with
      | .error e => .error e
      | .ok pc =>
        .ok (sOr (hp.map (· = true)) (sOr (p.map (· = true)) (pc.map (fun m => decide (0 < m)))))

/-- Evaluation of one condition on one row, in SQL semantics.  Cast failures
abort the whole query (PostgreSQL raises while scanning). -/
def evalCond (c : Cond) (r : Row) : Except QErr SBool :=
  match c with
  | Cond.freshness =>
    let t := propText r "data_status"
    .ok (sOr (some (t = none)) (t.map (fun s => decide (s ≠ "outdated"))))
  | Cond.categoryIn vs => .ok (some (vs.contains r.category))
  | Cond.cityEq v => .ok (some (r.city == v))
  | Cond.bboxWithin x1 y1 x2 y2 =>
    .ok (some (pfLt x1 (PyFloat.fin r.lng) && pfLt (PyFloat.fin r.lng) x2 &&
      pfLt y1 (PyFloat.fin r.lat) && pfLt (PyFloat.fin r.lat) y2))
  | Cond.diaperPositive =>
    match castInt (propText r "diaper_table_count") with
    | .error e => .error e
    | .ok n => .ok (n.map (fun m => decide (0 < m)))
  | Cond.diaperZeroOrNull =>
    let t := propText r "diaper_table_count"
    match castInt t with
    | .error e => .error e
    | .ok n => .ok (sOr (n.map (fun m => decide (m = 0))) (some (t = none)))
  | Cond.parkingOr => evalParkingOr r
  | Cond.parkingNotOr => (evalParkingOr r).map sNot

/-- Conjunction of all conditions on one row (`WHERE 1=1 AND c1 AND ...`). -/
def evalConds : List Cond → Row → Except QErr SBool
  | [], _ => .ok (some true)
  | c :: cs, r =>
    match evalCond c r with
    | .error e => .error e
    | .ok b =>
      match evalConds cs r with
      | .error e => .error e
      | .ok rest => .ok (sAnd b rest)

/-- Rows of the store (in store order) whose WHERE clause evaluates to SQL
TRUE; a cast error on any scanned row aborts the query. -/
def selectRows (conds : List Cond) : List Row → Except QErr (List Row)
  | [] => .ok []
  | r :: rest =>
    match evalConds conds r with
    | .error e => .error e
    | .ok sb =>
      match selectRows conds rest with
      | .error e => .error e
      | .ok tail => .ok (if sb = some true then r :: tail else tail)

/-- Normalized place in the public response shape. -/
structure NormPlace where
  id : String
  name : String
  address : Option String
  lat : ℚ
  lng : ℚ
  category : String
  city : String
  properties : List (String × JVal)
deriving DecidableEq, Repr

/-- Row normalizer (`normalize_place_from_db`): passes columns through and
keeps the decoded properties mapping (rows arrive already decoded in this
model, so the `json.loads` branch is identity). -/
def normalize_place_from_db (r : Row) : NormPlace :=
  { id := r.id, name := r.name, address := r.address, lat := r.lat, lng := r.lng,
    category := r.category, city := r.city, properties := r.properties }

/-- Response of the list-places operation. -/
structure PlacesResult where
  items : List NormPlace
  count : Nat
deriving DecidableEq, Repr

/-- The list-places operation (`get_places`): build the query, execute it,
normalize every returned row, and report `count = len(items)`. -/
def get_places (crit : FilterCriteria) (db : List Row) : Except QErr PlacesResult :=
  match buildConds crit with
  | .error e => .error e
  | .ok conds =>
    match selectRows conds db with
    | .error e => .error e
    | .ok rows =>
      let places := rows.map normalize_place_from_db
      .ok { items := places, count := places.length }

/-- Freshness condition of the aggregate queries
(`properties->>'data_status' IS NULL OR properties->>'data_status' != 'outdated'`;
never NULL, so a plain boolean suffices here). -/
def freshCond (r : Row) : Bool :=
  match propText r "data_status" with
  | none => true
  | some s => s != "outdated"

/-- Freshness filter as actually applied: the condition is only emitted when
`include_outdated` is false. -/
def freshPass (include_outdated : Bool) (r : Row) : Bool :=
  include_outdated || freshCond r

/-- Category filter of the aggregate queries (`category IN (...)`, emitted
only for a non-empty list). -/
def catPass (category : List String) (r : Row) : Bool :=
  category.isEmpty || category.contains r.category

/-- Insertion into a `≤`-sorted string list. -/
def insertSorted (x : String) : List String → List String
  | [] => [x]
  | y :: ys => if strLe x y then x :: y :: ys else y :: insertSorted x ys

/-- Insertion sort on strings, modelling SQL `ORDER BY` on a text key. -/
def sortStr (l : List String) : List String :=
  l.foldr insertSorted []

/-- One entry of the list-cities response. -/
structure CityAggregate where
  code : String
  name : String
  count : Nat
deriving DecidableEq, Repr

/-- Response of the list-cities operation. -/
structure CitiesResult where
  cities : List CityAggregate
deriving DecidableEq, Repr

/-- Candidate predicate of the secondary name lookup
(`WHERE city = %s AND properties->>'city_name' IS NOT NULL`): scoped by the
city code alone — the freshness and category filters of the request are not
reapplied. -/
def cityNameCand (code : String) (r : Row) : Bool :=
  r.city == code && (propText r "city_name").isSome

/-- City display-name resolution (`LIMIT 1` without `ORDER BY`, modelled as
the first matching row in store order), followed by the Python truthiness
check `if name_row and name_row.get("city_name")`: an empty-string name keeps
the code fallback. -/
def resolveCityName (db : List Row) (code : String) : String :=
  match db.find? (cityNameCand code) with
  | some r =>
    match propText r "city_name" with
    | some s => if s = "" then code else s
    | none => code
  | none => code

/-- The list-cities operation (`get_cities`): group the filtered rows by city
(`GROUP BY city ORDER BY city`), count each group, and resolve a display name
per group via the secondary lookup. -/
def get_cities (category : List String) (include_outdated : Bool) (db : List Row) :
    CitiesResult :=
  let matching := db.filter (fun r => freshPass include_outdated r && catPass category r)
  let codes := sortStr (matching.map (fun r => r.city)).dedup
  { cities := codes.map (fun code =>
      { code := code,
        name := resolveCityName db code,
        count := matching.countP (fun r => r.city == code) }) }

/-- One entry of the list-districts response. -/
structure DistrictAggregate where
  name : String
  count : Nat
deriving DecidableEq, Repr

/-- Response of the list-districts operation. -/
structure DistrictsResult where
  city : String
  districts : List DistrictAggregate
deriving DecidableEq, Repr

/-- SQL condition `properties->>'district' IS NOT NULL` appended by the
district query (an empty-string district passes it). -/
def districtNotNull (r : Row) : Bool :=
  (propText r "district").isSome

/-- The list-districts operation (`get_districts`): `city` is mandatory
(`ValueError` when empty), rows are filtered by city equality, freshness,
category and non-null district, grouped by the district text
(`GROUP BY ... ORDER BY ...`), and the Python loop `if district_name:` drops
a group whose key is the empty string. -/
def get_districts (city : String) (category : List String) (include_outdated : Bool)
    (db : List Row) : Except QErr DistrictsResult :=
  if city = "" then .error (.valueError "city 參數必需")
  else
    let matching := db.filter (fun r =>
      r.city == city && freshPass include_outdated r && catPass category r &&
        districtNotNull r)
    let keys := sortStr (matching.filterMap (fun r => propText r "district")).dedup
    .ok { city := city,
          districts := keys.filterMap (fun d =>
            if d = "" then none
            else some { name := d, count := matching.countP (fun r => propText r "district" == some d) }) }

/-- Total count reported for city `c` in a list-cities response (sum over the
entries carrying that code; the grouping produces at most one). -/
def cityCount (res : CitiesResult) (c : String) : Nat :=
  ((res.cities.filter (fun e => e.code == c)).map (fun e => e.count)).sum

/-- Total count reported for district `d` in a list-districts response. -/
def districtCount (res : DistrictsResult) (d : String) : Nat :=
  ((res.districts.filter (fun e => e.name == d)).map (fun e => e.count)).sum

/-- A row is kept by the WHERE clause iff its conjunction evaluates exactly to
SQL TRUE (NULL and FALSE both drop the row). -/
instance {ε α : Type} [DecidableEq ε] [DecidableEq α] : DecidableEq (Except ε α) := fun a b =>
  match a, b with
  | .ok x, .ok y =>
    if h : x = y then isTrue (by rw [h]) else isFalse (fun hc => h (Except.ok.inj hc))
  | .error x, .error y =>
    if h : x = y then isTrue (by rw [h]) else isFalse (fun hc => h (Except.error.inj hc))
  | .ok _, .error _ => isFalse (fun hc => Except.noConfusion hc)
  | .error _, .ok _ => isFalse (fun hc => Except.noConfusion hc)

def keepB (conds : List Cond) (r : Row) : Bool :=
  decide (evalConds conds r = Except.ok (some true))

/-- Derived diaper-table count of a row: the `->>` text parsed as an integer
(meaningful when the text is absent or a valid integer; otherwise the real
query raises). -/
def diaperCount (r : Row) : Option Int :=
  (propText r "diaper_table_count").bind pgParseInt

/-- Rows selected by diaper flag "1": count strictly positive. -/
def diaperPred1 (r : Row) : Bool :=
  match diaperCount r with
  | some n => decide (0 < n)
  | none => false

/-- Rows selected by diaper flag "0": count zero or field missing. -/
def diaperPred0 (r : Row) : Bool :=
  match diaperCount r with
  | some n => decide (n = 0)
  | none => true

/-- Python truthiness of the `city` criterion (`if city:`): an empty string
behaves as absent. -/
def cityTruthy (c : FilterCriteria) : Bool :=
  match c.city with
  | some s => s != ""
  | none => false

/-- Row with none of the three parking representations in `properties`. -/
def c1Row : Row :=
  ⟨"p1", "Place 1", none, "park", "taipei", 121, 25, []⟩

/-- Row that the parking OR-condition evaluates to SQL FALSE on (all three
representations present and negative). -/
def c1wRowNo : Row :=
  ⟨"w1", "W1", none, "park", "taipei", 1, 1,
    [("has_parking", JVal.b false), ("parking", JVal.b false), ("parking_count", JVal.i 0)]⟩

/-- Row with no parking information at all. -/
def c1wRowNull : Row :=
  ⟨"w2", "W2", none, "park", "taipei", 2, 2, []⟩

/-- Witness database for the parking-flag-"0" characterization. -/
def c1wDb : List Row := [c1wRowNo, c1wRowNull]

/-- Place whose point lies exactly on the lower edge of the test envelope. -/
def c2Row : Row :=
  ⟨"e1", "Edge", none, "park", "taipei", 5, 0, []⟩

/-- Place strictly inside the test envelope. -/
def c2wRow : Row :=
  ⟨"i1", "Inner", none, "park", "taipei", 5, 5, []⟩

/-- Row with a non-numeric diaper-table count. -/
def c4Row : Row :=
  ⟨"d1", "D1", none, "park", "taipei", 0, 0, [("diaper_table_count", JVal.s "three")]⟩

/-- Row without the diaper-table count field. -/
def c4wRow : Row :=
  ⟨"d2", "D2", none, "park", "taipei", 0, 0, []⟩

/-- Outdated row without a district sub-field. -/
def c5Row : Row :=
  ⟨"o1", "O1", none, "park", "c1", 0, 0, [("data_status", JVal.s "outdated")]⟩

/-- Outdated row carrying a district, for the amended freshness theorem. -/
def c5wRow : Row :=
  ⟨"o2", "O2", none, "park", "cw", 0, 0,
    [("data_status", JVal.s "outdated"), ("district", JVal.s "Da")]⟩

/-- Row whose only `city_name` is the empty string (non-null in SQL, falsy in
Python). -/
def c6Row : Row :=
  ⟨"p1", "P1", none, "park", "c1", 0, 0, [("city_name", JVal.s "")]⟩

/-- Row with a regular non-empty `city_name`. -/
def c6wRow : Row :=
  ⟨"p2", "P2", none, "park", "cn", 0, 0, [("city_name", JVal.s "Taipei")]⟩

/-- Fresh row without a district sub-field, for the city/district asymmetry. -/
def c7Row : Row :=
  ⟨"q1", "Q1", none, "park", "cq", 0, 0, []⟩

/-- Row with a negative diaper-table count (selected by neither flag). -/
def c8Row : Row :=
  ⟨"n1", "N1", none, "park", "taipei", 0, 0, [("diaper_table_count", JVal.i (-1))]⟩

/-- Witness database with positive, zero and missing diaper-table counts. -/
def c8wDb : List Row :=
  [⟨"m3", "M3", none, "park", "taipei", 0, 0, [("diaper_table_count", JVal.i 3)]⟩,
   ⟨"m0", "M0", none, "park", "taipei", 0, 0, [("diaper_table_count", JVal.i 0)]⟩,
   ⟨"mx", "MX", none, "park", "taipei", 0, 0, []⟩]

/-- Database with an empty-string district and a regular district. -/
def c10Db : List Row :=
  [⟨"r1", "R1", none, "park", "c1", 0, 0, [("district", JVal.s "")]⟩,
   ⟨"r2", "R2", none, "park", "c1", 0, 0, [("district", JVal.s "A")]⟩]

/-- Strict-interior containment test of a place in a finite envelope. -/
def bboxKeep (a b c d : ℚ) (r : Row) : Bool :=
  decide (a < r.lng) && decide (r.lng < c) && decide (b < r.lat) && decide (r.lat < d)

theorem keepB_eq_true {conds : List Cond} {r : Row}
    (h : evalConds conds r = Except.ok (some true)) : keepB conds r = true :=
  decide_eq_true h

theorem keepB_eq_false {conds : List Cond} {r : Row} {v : Except QErr SBool}
    (h : evalConds conds r = v) (hne : v ≠ Except.ok (some true)) :
    keepB conds r = false :=
  decide_eq_false (fun hc => hne (h ▸ hc))

theorem sAnd_some_true_right (b : SBool) : sAnd b (some true) = b := by
  rcases b with _ | b
  · rfl
  · cases b <;> rfl

theorem selectRows_ok_eq_filter (conds : List Cond) :
    ∀ (db l : List Row), selectRows conds db = .ok l → l = db.filter (keepB conds) := by
  intro db
  induction db with
  | nil => intro l h; simpa [selectRows] using h.symm
  | cons r rest ih =>
    intro l h
    simp only [selectRows] at h
    cases he : evalConds conds r with
    | error e => rw [he] at h; cases h
    | ok sb =>
      rw [he] at h
      cases hs : selectRows conds rest with
      | error e => rw [hs] at h; cases h
      | ok tail =>
        rw [hs] at h
        cases h
        by_cases hb : sb = some true
        · subst hb
          rw [List.filter_cons, keepB_eq_true he, ih tail hs]
          simp
        · have hne : (Except.ok sb : Except QErr SBool) ≠ Except.ok (some true) :=
            fun hc => hb (Except.ok.inj hc)
          rw [List.filter_cons, keepB_eq_false he hne, ih tail hs]
          simp [hb]

theorem selectRows_total (conds : List Cond) (db : List Row)
    (h : ∀ r ∈ db, (evalConds conds r).isOk = true) :
    selectRows conds db = .ok (db.filter (keepB conds)) := by
  induction db with
  | nil => rfl
  | cons r rest ih =>
    have hr := h r (by simp)
    cases he : evalConds conds r with
    | error e => rw [he] at hr; cases hr
    | ok sb =>
      have htail := ih (fun x hx => h x (by simp [hx]))
      by_cases hb : sb = some true
      · subst hb
        simp [selectRows, he, htail, List.filter_cons, keepB_eq_true he]
      · simp [selectRows, he, htail, List.filter_cons,
          keepB_eq_false he (fun hc => hb (Except.ok.inj hc)), hb]

theorem get_places_ok_items (crit : FilterCriteria) (conds : List Cond) (db : List Row)
    (res : PlacesResult) (hb : buildConds crit = .ok conds)
    (h : get_places crit db = .ok res) :
    res.items = (db.filter (keepB conds)).map normalize_place_from_db := by
  simp only [get_places, hb] at h
  cases hs : selectRows conds db with
  | error e => rw [hs] at h; cases h
  | ok rows =>
    rw [hs] at h
    cases h
    rw [selectRows_ok_eq_filter conds db rows hs]

theorem mem_insertSorted (x a : String) (l : List String) :
    a ∈ insertSorted x l ↔ a = x ∨ a ∈ l := by
  induction l with
  | nil => simp [insertSorted]
  | cons y ys ih =>
    by_cases h : strLe x y = true
    · simp [insertSorted, h]
    · simp only [insertSorted, if_neg h, List.mem_cons, ih]
      tauto

theorem mem_sortStr (a : String) (l : List String) : a ∈ sortStr l ↔ a ∈ l := by
  induction l with
  | nil => simp [sortStr]
  | cons x xs ih =>
    show a ∈ insertSorted x (sortStr xs) ↔ _
    rw [mem_insertSorted]
    simp [ih]

theorem nodup_insertSorted (x : String) (l : List String) (hx : x ∉ l) (h : l.Nodup) :
    (insertSorted x l).Nodup := by
  induction l with
  | nil => simp [insertSorted]
  | cons y ys ih =>
    rcases List.nodup_cons.mp h with ⟨hy, hys⟩
    by_cases hle : strLe x y = true
    · simp only [insertSorted, if_pos hle]
      exact List.nodup_cons.mpr ⟨hx, h⟩
    · simp only [insertSorted, if_neg hle]
      refine List.nodup_cons.mpr ⟨?_, ih (fun hm => hx (by simp [hm])) hys⟩
      rw [mem_insertSorted]
      rintro (rfl | hm)
      · exact hx (by simp)
      · exact hy hm

theorem nodup_sortStr (l : List String) (h : l.Nodup) : (sortStr l).Nodup := by
  induction l with
  | nil => simp [sortStr]
  | cons x xs ih =>
    rcases List.nodup_cons.mp h with ⟨hx, hxs⟩
    show (insertSorted x (sortStr xs)).Nodup
    exact nodup_insertSorted x (sortStr xs) (fun hm => hx ((mem_sortStr x xs).mp hm)) (ih hxs)

theorem filter_map_entries (c : String) (nm : String → String) (cnt : String → Nat) :
    ∀ keys : List String, keys.Nodup →
      (((keys.map (fun k => CityAggregate.mk k (nm k) (cnt k))).filter
          (fun e => e.code == c)).map (fun e => e.count)).sum
        = if c ∈ keys then cnt c else 0 := by
  intro keys
  induction keys with
  | nil => simp
  | cons k ks ih =>
    intro hnd
    rcases List.nodup_cons.mp hnd with ⟨hk, hks⟩
    by_cases hkc : k = c
    · subst hkc
      have h0 : (((ks.map (fun x => CityAggregate.mk x (nm x) (cnt x))).filter
          (fun e => e.code == k)).map (fun e => e.count)).sum = 0 := by
        rw [ih hks, if_neg hk]
      simp [List.filter_cons, h0]
    · have hck : ¬c = k := fun h => hkc h.symm
      simp [List.filter_cons, hkc, hck, ih hks, List.mem_cons]

theorem cityCount_get_cities (cat : List String) (io : Bool) (db : List Row) (c : String) :
    cityCount (get_cities cat io db) c
      = db.countP (fun r => r.city == c && (freshPass io r && catPass cat r)) := by
  rw [cityCount, get_cities]
  rw [filter_map_entries c _ _ _ (nodup_sortStr _ (List.nodup_dedup _))]
  rw [← List.countP_filter]
  by_cases hc : c ∈ sortStr ((db.filter (fun r => freshPass io r && catPass cat r)).map
      (fun r => r.city)).dedup
  · rw [if_pos hc]
  · rw [if_neg hc]
    symm
    rw [List.countP_eq_zero]
    intro r hr hrc
    apply hc
    rw [mem_sortStr, List.mem_dedup, List.mem_map]
    exact ⟨r, hr, by simpa using hrc⟩

theorem filter_filterMap_entries (d : String) (cnt : String → Nat) (hd : d ≠ "") :
    ∀ keys : List String, keys.Nodup →
      (((keys.filterMap (fun k =>
            if k = "" then none else some (DistrictAggregate.mk k (cnt k)))).filter
          (fun e => e.name == d)).map (fun e => e.count)).sum
        = if d ∈ keys then cnt d else 0 := by
  intro keys
  induction keys with
  | nil => simp
  | cons k ks ih =>
    intro hnd
    rcases List.nodup_cons.mp hnd with ⟨hk, hks⟩
    by_cases hke : k = ""
    · subst hke
      have hde : ¬d = "" := hd
      simp [List.filterMap_cons, ih hks, List.mem_cons, hde]
    · by_cases hkc : k = d
      · subst hkc
        have h0 : (((ks.filterMap (fun x =>
              if x = "" then none else some (DistrictAggregate.mk x (cnt x)))).filter
            (fun e => e.name == k)).map (fun e => e.count)).sum = 0 := by
          rw [ih hks, if_neg hk]
        simp [List.filterMap_cons, hke, List.filter_cons, h0]
      · have hck : ¬d = k := fun h => hkc h.symm
        simp [List.filterMap_cons, hke, List.filter_cons, hkc, hck, ih hks, List.mem_cons]

theorem keepB_of_eval {conds : List Cond} {r : Row} {b : Bool}
    (h : evalConds conds r = Except.ok (some b)) : keepB conds r = b := by
  cases b
  · exact keepB_eq_false h (fun hc => by simp at hc)
  · exact keepB_eq_true h

theorem keepB_of_eval_none {conds : List Cond} {r : Row}
    (h : evalConds conds r = Except.ok none) : keepB conds r = false :=
  keepB_eq_false h (fun hc => by simp at hc)

theorem evalConds_single (c : Cond) (r : Row) : evalConds [c] r = evalCond c r := by
  cases h : evalCond c r with
  | error e => simp [evalConds, h]
  | ok b => simp [evalConds, h, sAnd_some_true_right]

theorem evalConds_nil (r : Row) : evalConds [] r = .ok (some true) := rfl

theorem districtCount_get_districts (city : String) (cat : List String) (io : Bool)
    (db : List Row) (d : String) (res : DistrictsResult)
    (hcity : city ≠ "") (hd : d ≠ "")
    (h : get_districts city cat io db = .ok res) :
    districtCount res d
      = db.countP (fun r => propText r "district" == some d &&
          (r.city == city && freshPass io r && catPass cat r && districtNotNull r)) := by
  rw [get_districts, if_neg hcity] at h
  cases Except.ok.inj h
  rw [districtCount]
  rw [filter_filterMap_entries d _ hd _ (nodup_sortStr _ (List.nodup_dedup _))]
  rw [← List.countP_filter]
  by_cases hmem : d ∈ sortStr ((db.filter (fun r =>
      r.city == city && freshPass io r && catPass cat r && districtNotNull r)).filterMap
        (fun r => propText r "district")).dedup
  · rw [if_pos hmem]
  · rw [if_neg hmem]
    symm
    rw [List.countP_eq_zero]
    intro r hr hrd
    apply hmem
    rw [mem_sortStr, List.mem_dedup, List.mem_filterMap]
    exact ⟨r, hr, by simpa using hrd⟩

theorem keepB_nil (r : Row) : keepB [] r = true :=
  keepB_of_eval (evalConds_nil r)

theorem keepB_freshness_eq (r : Row) : keepB [Cond.freshness] r = freshCond r := by
  have he : evalConds [Cond.freshness] r = .ok (some (freshCond r)) := by
    rw [evalConds_single]
    cases ht : propText r "data_status" with
    | none => simp [evalCond, ht, sOr, freshCond]
    | some s =>
      by_cases hs : s = "outdated"
      · simp [evalCond, ht, hs, sOr, freshCond]
      · simp [evalCond, ht, hs, sOr, freshCond]
  exact keepB_of_eval he

theorem keepB_parkingNotOr (r : Row) :
    keepB [Cond.parkingNotOr] r = decide (evalParkingOr r = Except.ok (some false)) := by
  rw [keepB, decide_eq_decide, evalConds_single]
  cases hp : evalParkingOr r with
  | error e => simp [evalCond, hp, Except.map]
  | ok sb =>
    rcases sb with _ | b
    · simp [evalCond, hp, sNot, Except.map]
    · cases b <;> simp [evalCond, hp, sNot, Except.map]

theorem keepB_bboxWithin_fin (a b c d : ℚ) (r : Row) :
    keepB [Cond.bboxWithin (PyFloat.fin a) (PyFloat.fin b) (PyFloat.fin c) (PyFloat.fin d)] r
      = (decide (a < r.lng) && decide (r.lng < c) && decide (b < r.lat) && decide (r.lat < d)) := by
  have he : evalConds [Cond.bboxWithin (PyFloat.fin a) (PyFloat.fin b) (PyFloat.fin c)
      (PyFloat.fin d)] r
      = .ok (some (decide (a < r.lng) && decide (r.lng < c) &&
          decide (b < r.lat) && decide (r.lat < d))) := by
    rw [evalConds_single]
    rfl
  exact keepB_of_eval he

theorem get_places_eq_of_total (crit : FilterCriteria) (conds : List Cond) (db : List Row)
    (hb : buildConds crit = .ok conds)
    (htot : ∀ r ∈ db, (evalConds conds r).isOk = true) :
    get_places crit db
      = .ok { items := (db.filter (keepB conds)).map normalize_place_from_db,
              count := ((db.filter (keepB conds)).map normalize_place_from_db).length } := by
  simp only [get_places, hb, selectRows_total conds db htot]

theorem renderQuery_congr (l1 l2 : List Cond) (h : l1.map condText = l2.map condText) :
    renderQuery l1 = renderQuery l2 := by
  cases l1 with
  | nil =>
    cases l2 with
    | nil => rfl
    | cons x xs => simp at h
  | cons x xs =>
    cases l2 with
    | nil => simp at h
    | cons y ys => simp only [renderQuery, List.isEmpty_cons, h]

/-- C1 (counterexample): with the parking flag `"0"`, a row whose properties
contain none of the three representations (`has_parking`, `parking`,
`parking_count`) is NOT returned, contrary to the claim: all three `->>`
extractions are SQL NULL, the OR is NULL, and `NOT NULL` is NULL, which the
WHERE clause drops. -/
theorem parking_absent_excludes_row_without_fields :
    get_places { has_parking := some "0", include_outdated := true } [c1Row]
      = .ok { items := [], count := 0 } := by
  decide

/-- C1 (amended): with only the parking flag `"0"` active (and
`includeOutdated` true), list-places returns exactly the rows on which the
three-representation parking OR-condition evaluates to SQL FALSE under
three-valued logic; a row with none of the three representations yields NULL,
not FALSE, and is therefore excluded. -/
theorem parking_absent_filter_selects_sql_false (db : List Row) (res : PlacesResult)
    (h : get_places { has_parking := some "0", include_outdated := true } db = .ok res) :
    res.items = (db.filter (fun r =>
        decide (evalParkingOr r = Except.ok (some false)))).map normalize_place_from_db := by
  have hb : buildConds { has_parking := some "0", include_outdated := true }
      = .ok [Cond.parkingNotOr] := rfl
  rw [get_places_ok_items _ _ _ _ hb h]
  congr 1
  exact List.filter_congr (fun r _ => keepB_parkingNotOr r)

/-- Witness for the amended C1 theorem at a concrete database: the row with
all three representations present and negative is returned, the row with none
is not. -/
theorem parking_absent_filter_selects_sql_false_witness :
    (PlacesResult.mk [normalize_place_from_db c1wRowNo] 1).items
      = (c1wDb.filter (fun r =>
          decide (evalParkingOr r = Except.ok (some false)))).map normalize_place_from_db :=
  parking_absent_filter_selects_sql_false c1wDb
    (PlacesResult.mk [normalize_place_from_db c1wRowNo] 1) (by decide)

/-- C2 (counterexample): with bbox `"0,0,10,10"`, a place at `(5, 0)` — a
point lying exactly on the lower edge of the rectangle, hence inside the
closed box — is NOT returned: `ST_Within` tests interior containment, and a
point on the polygon boundary is not within it. -/
theorem bbox_excludes_boundary_point :
    get_places { bbox := some "0,0,10,10", include_outdated := true } [c2Row]
        = .ok { items := [], count := 0 }
      ∧ ((0 : ℚ) ≤ c2Row.lng ∧ c2Row.lng ≤ 10 ∧ (0 : ℚ) ≤ c2Row.lat ∧ c2Row.lat ≤ 10) := by
  constructor
  · decide
  · decide

/-- C2 (amended): with only a bbox filter active whose four components parse
to finite floats `a, b, c, d`, list-places returns exactly the places whose
point lies STRICTLY inside the rectangle (`a < lng < c` and `b < lat < d`);
points exactly on an edge are excluded (`ST_Within` is interior-based, not
closed containment). -/
theorem bbox_filter_selects_strict_interior (s : String) (a b c d : ℚ) (db : List Row)
    (hparse : parseBbox s
      = some (PyFloat.fin a, PyFloat.fin b, PyFloat.fin c, PyFloat.fin d)) :
    get_places { bbox := some s, include_outdated := true } db
      = .ok
          { items := (db.filter (bboxKeep a b c d)).map normalize_place_from_db,
            count := ((db.filter (bboxKeep a b c d)).map normalize_place_from_db).length } := by
  have hs : ¬s = "" := by
    intro h
    rw [h, show parseBbox "" = none from rfl] at hparse
    exact Option.noConfusion hparse
  have hb : buildConds { bbox := some s, include_outdated := true }
      = .ok [Cond.bboxWithin (PyFloat.fin a) (PyFloat.fin b) (PyFloat.fin c) (PyFloat.fin d)] := by
    simp [buildConds, hs, hparse]
  have htot : ∀ r ∈ db,
      (evalConds [Cond.bboxWithin (PyFloat.fin a) (PyFloat.fin b) (PyFloat.fin c)
        (PyFloat.fin d)] r).isOk = true := by
    intro r _
    rw [evalConds_single]
    rfl
  rw [get_places_eq_of_total _ _ db hb htot]
  have hfun : keepB [Cond.bboxWithin (PyFloat.fin a) (PyFloat.fin b) (PyFloat.fin c)
      (PyFloat.fin d)] = bboxKeep a b c d :=
    funext (fun r => keepB_bboxWithin_fin a b c d r)
  rw [hfun]

/-- Witness for the amended C2 theorem: bbox `"0,0,10,10"` parses to the
finite corners `0, 0, 10, 10`, and a place strictly inside is returned. -/
theorem bbox_filter_selects_strict_interior_witness :
    get_places { bbox := some "0,0,10,10", include_outdated := true } [c2wRow]
      = .ok
          { items := ([c2wRow].filter (bboxKeep 0 0 10 10)).map normalize_place_from_db,
            count := (([c2wRow].filter (bboxKeep 0 0 10 10)).map
              normalize_place_from_db).length } :=
  bbox_filter_selects_strict_interior "0,0,10,10" 0 0 10 10 [c2wRow] (by decide)

/-- C3 (counterexample): a bbox argument equal to the empty string does not
consist of four comma-separated numeric components, yet `if bbox:` treats it
as absent, so the builder succeeds and silently drops the filter instead of
failing with a validation error. -/
theorem empty_bbox_string_is_silently_dropped :
    build_places_query { bbox := some "", include_outdated := true }
      = .ok (base_query, []) := rfl

/-- C3 (amended): a NON-EMPTY bbox string that does not parse as exactly four
comma-separated Python floats makes the builder fail with a `ValueError`
whose message interpolates the raw offending value; any bbox whose parse
succeeds never fails the build, and the empty string is treated as an absent
filter (no error). -/
theorem malformed_bbox_raises_value_error (crit : FilterCriteria) (s : String)
    (hb : crit.bbox = some s) :
    (¬s = "" → parseBbox s = none →
        build_places_query crit = .error (.valueError (bboxErrMsg s)))
  ∧ (¬parseBbox s = none → (build_places_query crit).isOk = true)
  ∧ (s = "" → (build_places_query crit).isOk = true) := by
  refine ⟨?_, ?_, ?_⟩
  · intro hs hp
    simp [build_places_query, buildConds, hb, hs, hp, Except.map]
  · intro hp
    by_cases hs : s = ""
    · simp [build_places_query, buildConds, hb, hs, Except.isOk, Except.toBool, Except.map]
    · cases hpv : parseBbox s with
      | none => exact absurd hpv hp
      | some v =>
        obtain ⟨x1, y1, x2, y2⟩ := v
        simp [build_places_query, buildConds, hb, hs, hpv, Except.isOk, Except.toBool,
          Except.map]
  · intro hs
    simp [build_places_query, buildConds, hb, hs, Except.isOk, Except.toBool, Except.map]

/-- Witness for the amended C3 theorem: `"1,2,3"` (wrong count) and
`"a,b,c,d"` (non-numeric tokens) both fail with the `ValueError` carrying the
raw value; the well-formed `"121.50,25.02,121.58,25.10"` builds
successfully. -/
theorem malformed_bbox_raises_value_error_witness :
    build_places_query { bbox := some "1,2,3" }
        = .error (.valueError (bboxErrMsg "1,2,3"))
  ∧ build_places_query { bbox := some "a,b,c,d" }
        = .error (.valueError (bboxErrMsg "a,b,c,d"))
  ∧ (build_places_query { bbox := some "121.50,25.02,121.58,25.10" }).isOk = true :=
  ⟨(malformed_bbox_raises_value_error { bbox := some "1,2,3" } "1,2,3" rfl).1
      (by decide) (by decide),
   (malformed_bbox_raises_value_error { bbox := some "a,b,c,d" } "a,b,c,d" rfl).1
      (by decide) (by decide),
   (malformed_bbox_raises_value_error { bbox := some "121.50,25.02,121.58,25.10" }
      "121.50,25.02,121.58,25.10" rfl).2.1 (by decide)⟩

/-- C4 (counterexample): a row whose `diaper_table_count` is the non-numeric
string `"three"` makes the operation FAIL with a cast error under both flag
values — the `::int` cast raises — instead of being treated as zero. -/
theorem diaper_non_numeric_aborts_query :
    get_places { has_diaper_table := some "1", include_outdated := true } [c4Row]
        = .error (.castError "invalid input syntax for type integer: \"three\"")
  ∧ get_places { has_diaper_table := some "0", include_outdated := true } [c4Row]
        = .error (.castError "invalid input syntax for type integer: \"three\"") := by
  constructor
  · decide
  · decide

/-- C4 (amended): a row whose `diaper_table_count` is ABSENT is treated as
zero: excluded under flag `"1"`, included under flag `"0"`, with no failure.
(A non-numeric value, by contrast, makes the `::int` cast raise and the whole
operation fail — see the counterexample.) -/
theorem diaper_absent_treated_as_zero (db : List Row)
    (habs : ∀ r ∈ db, propText r "diaper_table_count" = none) :
    get_places { has_diaper_table := some "1", include_outdated := true } db
        = .ok { items := [], count := 0 }
  ∧ get_places { has_diaper_table := some "0", include_outdated := true } db
        = .ok { items := db.map normalize_place_from_db, count := db.length } := by
  have hb1 : buildConds { has_diaper_table := some "1", include_outdated := true }
      = .ok [Cond.diaperPositive] := rfl
  have hb0 : buildConds { has_diaper_table := some "0", include_outdated := true }
      = .ok [Cond.diaperZeroOrNull] := rfl
  have hev1 : ∀ r ∈ db, evalConds [Cond.diaperPositive] r = .ok none := by
    intro r hr
    rw [evalConds_single]
    simp [evalCond, habs r hr, castInt]
  have hev0 : ∀ r ∈ db, evalConds [Cond.diaperZeroOrNull] r = .ok (some true) := by
    intro r hr
    rw [evalConds_single]
    simp [evalCond, habs r hr, castInt, sOr]
  constructor
  · rw [get_places_eq_of_total _ _ db hb1 (fun r hr => by rw [hev1 r hr]; rfl)]
    have hnil : db.filter (keepB [Cond.diaperPositive]) = [] := by
      rw [List.filter_eq_nil_iff]
      intro r hr
      rw [keepB_of_eval_none (hev1 r hr)]
      simp
    rw [hnil]
    rfl
  · rw [get_places_eq_of_total _ _ db hb0 (fun r hr => by rw [hev0 r hr]; rfl)]
    have hall : db.filter (keepB [Cond.diaperZeroOrNull]) = db := by
      rw [List.filter_eq_self]
      intro r hr
      exact keepB_of_eval (hev0 r hr)
    rw [hall, List.length_map]

/-- Witness for the amended C4 theorem at a one-row database whose row lacks
the diaper-table count field. -/
theorem diaper_absent_treated_as_zero_witness :
    get_places { has_diaper_table := some "1", include_outdated := true } [c4wRow]
        = .ok { items := [], count := 0 }
  ∧ get_places { has_diaper_table := some "0", include_outdated := true } [c4wRow]
        = .ok { items := [c4wRow].map normalize_place_from_db, count := [c4wRow].length } :=
  diaper_absent_treated_as_zero [c4wRow] (by decide)

/-- C5 (counterexample): an outdated row WITHOUT a district sub-field is not
included in the list-districts result even with `includeOutdated = true` (the
district query additionally requires a non-null district), contradicting the
claim that such a row "is included in each" of the three operations. -/
theorem outdated_row_without_district_not_in_districts :
    get_districts "c1" [] true [c5Row] = .ok { city := "c1", districts := [] }
  ∧ propText c5Row "data_status" = some "outdated" := by
  constructor
  · decide
  · decide

/-- C5 (amended): a row whose `properties.data_status` is `"outdated"` is,
with `includeOutdated = false`, excluded from list-places, contributes nothing
to its city's count in list-cities, and leaves list-districts unchanged; with
`includeOutdated = true` it is returned by list-places (no other filters set),
adds one to its city's count, and adds one to its district's count PROVIDED it
carries a non-empty district sub-field — a row without one never appears in
the district breakdown. -/
theorem outdated_row_filtering_across_operations (db : List Row) (r : Row)
    (hout : propText r "data_status" = some "outdated") :
    (∀ res : PlacesResult, get_places {} db = .ok res →
        normalize_place_from_db r ∉ res.items)
  ∧ (r ∈ db → ∀ res : PlacesResult,
        get_places { include_outdated := true } db = .ok res →
          normalize_place_from_db r ∈ res.items)
  ∧ cityCount (get_cities [] false (r :: db)) r.city
      = cityCount (get_cities [] false db) r.city
  ∧ cityCount (get_cities [] true (r :: db)) r.city
      = cityCount (get_cities [] true db) r.city + 1
  ∧ (∀ city, get_districts city [] false (r :: db) = get_districts city [] false db)
  ∧ (∀ d res res2, propText r "district" = some d → ¬d = "" → ¬r.city = "" →
        get_districts r.city [] true (r :: db) = .ok res →
        get_districts r.city [] true db = .ok res2 →
          districtCount res d = districtCount res2 d + 1) := by
  refine ⟨?_, ?_, ?_, ?_, ?_, ?_⟩
  · intro res h hmem
    have hb : buildConds {} = .ok [Cond.freshness] := rfl
    rw [get_places_ok_items _ _ _ _ hb h] at hmem
    obtain ⟨r2, hr2, hn⟩ := List.mem_map.mp hmem
    rcases List.mem_filter.mp hr2 with ⟨_, hkeep⟩
    have hprops : r2.properties = r.properties := congrArg NormPlace.properties hn
    have h2 : propText r2 "data_status" = some "outdated" := by
      rw [propText, hprops]
      exact hout
    rw [keepB_freshness_eq] at hkeep
    simp [freshCond, h2] at hkeep
  · intro hrdb res h
    have hb : buildConds { include_outdated := true } = .ok [] := rfl
    rw [get_places_ok_items _ _ _ _ hb h]
    have hall : db.filter (keepB []) = db :=
      List.filter_eq_self.mpr (fun a _ => keepB_nil a)
    rw [hall]
    exact List.mem_map.mpr ⟨r, hrdb, rfl⟩
  · rw [cityCount_get_cities, cityCount_get_cities, List.countP_cons]
    simp [freshPass, freshCond, hout]
  · rw [cityCount_get_cities, cityCount_get_cities, List.countP_cons]
    simp [freshPass, catPass]
  · intro city
    by_cases hc : city = ""
    · simp [get_districts, hc]
    · have hpred : (r.city == city && freshPass false r && catPass [] r &&
          districtNotNull r) = false := by
        simp [freshPass, freshCond, hout]
      simp [get_districts, if_neg hc, List.filter_cons, hpred]
  · intro d res res2 hd hdne hcne h1 h2
    rw [districtCount_get_districts r.city [] true (r :: db) d res hcne hdne h1,
      districtCount_get_districts r.city [] true db d res2 hcne hdne h2,
      List.countP_cons]
    simp [hd, freshPass, catPass, districtNotNull]

/-- Witness for the amended C5 theorem: one outdated row with a district,
checked on the city-count increment under `includeOutdated = true`. -/
theorem outdated_row_filtering_across_operations_witness :
    cityCount (get_cities [] true (c5wRow :: [])) "cw"
      = cityCount (get_cities [] true []) "cw" + 1 :=
  (outdated_row_filtering_across_operations [] c5wRow (by decide)).2.2.2.1

/-- C6 (counterexample): the single row of city `"c1"` has a NON-NULL
`city_name` (the empty string), so the claim requires the aggregate's name to
equal that row's value `""`; but the Python truthiness check
`if name_row.get("city_name")` rejects the empty string and the operation
falls back to the code `"c1"`. -/
theorem city_name_empty_string_falls_back_to_code :
    get_cities [] false [c6Row]
        = { cities := [{ code := "c1", name := "c1", count := 1 }] }
  ∧ propText c6Row "city_name" = some ""
  ∧ ("c1" : String) ≠ "" := by
  refine ⟨by decide, by decide, by decide⟩

/-- C6 (amended): every city aggregate's name is computed by
`resolveCityName` from the store and the city code ALONE (the freshness and
category filters of the request are not reapplied — the name is independent
of them); the lookup takes the FIRST row in store order whose city matches
and whose `city_name` is non-null, uses its value when non-empty, and falls
back to the code when the lookup finds nothing or the found value is the
empty string. -/
theorem city_name_resolution_first_nonempty (cat : List String) (io : Bool)
    (db : List Row) (e : CityAggregate) (he : e ∈ (get_cities cat io db).cities) :
    e.name = resolveCityName db e.code
  ∧ (db.find? (cityNameCand e.code) = none → e.name = e.code)
  ∧ (∀ r s, db.find? (cityNameCand e.code) = some r → propText r "city_name" = some s →
        ¬s = "" → e.name = s)
  ∧ (∀ r, db.find? (cityNameCand e.code) = some r → propText r "city_name" = some "" →
        e.name = e.code) := by
  obtain ⟨code, _, hmk⟩ := List.mem_map.mp he
  have hname : e.name = resolveCityName db e.code := by
    rw [← hmk]
  refine ⟨hname, ?_, ?_, ?_⟩
  · intro hfind
    rw [hname, resolveCityName, hfind]
  · intro r s hfind htext hs
    rw [hname, resolveCityName, hfind]
    simp [htext, hs]
  · intro r hfind htext
    rw [hname, resolveCityName, hfind]
    simp [htext]

/-- Witness for the amended C6 theorem: a store whose first matching row
carries the non-empty name `"Taipei"`. -/
theorem city_name_resolution_first_nonempty_witness :
    (CityAggregate.mk "cn" (resolveCityName [c6wRow] "cn") 1).name = "Taipei" :=
  (city_name_resolution_first_nonempty [] false [c6wRow]
      (CityAggregate.mk "cn" (resolveCityName [c6wRow] "cn") 1) (by decide)).2.2.1
    c6wRow "Taipei" (by decide) (by decide) (by decide)

/-- C7 (confirmed): a row matching the common freshness/category filters but
whose properties carry no district sub-field is invisible to list-districts
(prepending it changes no district output, for any city) yet adds one to its
city's count in list-cities under the same filters. -/
theorem districtless_row_counts_in_city_not_district (db : List Row)
    (cat : List String) (io : Bool) (r : Row)
    (hfresh : freshPass io r = true) (hcat : catPass cat r = true)
    (hnod : propText r "district" = none) :
    (∀ city, get_districts city cat io (r :: db) = get_districts city cat io db)
  ∧ cityCount (get_cities cat io (r :: db)) r.city
      = cityCount (get_cities cat io db) r.city + 1 := by
  constructor
  · intro city
    by_cases hc : city = ""
    · simp [get_districts, hc]
    · have hpred : (r.city == city && freshPass io r && catPass cat r &&
          districtNotNull r) = false := by
        simp [districtNotNull, hnod]
      simp [get_districts, if_neg hc, List.filter_cons, hpred]
  · rw [cityCount_get_cities, cityCount_get_cities, List.countP_cons]
    simp [hfresh, hcat]

/-- Witness for C7: a fresh, district-less row of city `"cq"` on an empty
store. -/
theorem districtless_row_counts_in_city_not_district_witness :
    cityCount (get_cities [] false (c7Row :: [])) "cq"
      = cityCount (get_cities [] false []) "cq" + 1 :=
  (districtless_row_counts_in_city_not_district [] [] false c7Row
    (by decide) (by decide) (by decide)).2

/-- C8 (counterexample): over a row with `diaper_table_count = -1`, flag `"1"`
selects nothing (`-1 > 0` is false) and flag `"0"` also selects nothing
(`-1 = 0` is false and the field is not null) — the two selections are NOT
complements over these rows. -/
theorem diaper_flags_not_complement_on_negative :
    get_places { has_diaper_table := some "1", include_outdated := true } [c8Row]
        = .ok { items := [], count := 0 }
  ∧ get_places { has_diaper_table := some "0", include_outdated := true } [c8Row]
        = .ok { items := [], count := 0 } := by
  constructor
  · decide
  · decide

/-- C8 (amended): over databases whose rows carry a missing field or a
NONNEGATIVE integer `diaper_table_count`, flag `"1"` selects exactly the rows
with count strictly positive, flag `"0"` selects exactly the rows with count
zero or missing, and the two selections are exact complements row by row.
(A negative count is selected by neither — see the counterexample — and a
non-numeric one aborts the query.) -/
theorem diaper_flags_complement_on_nonnegative (db : List Row)
    (hok : ∀ r ∈ db, ∀ s, propText r "diaper_table_count" = some s →
        ∃ n, pgParseInt s = some n ∧ 0 ≤ n) :
    get_places { has_diaper_table := some "1", include_outdated := true } db
        = .ok
            { items := (db.filter diaperPred1).map normalize_place_from_db,
              count := ((db.filter diaperPred1).map normalize_place_from_db).length }
  ∧ get_places { has_diaper_table := some "0", include_outdated := true } db
        = .ok
            { items := (db.filter diaperPred0).map normalize_place_from_db,
              count := ((db.filter diaperPred0).map normalize_place_from_db).length }
  ∧ ∀ r ∈ db, diaperPred0 r = !diaperPred1 r := by
  have key : ∀ r ∈ db,
      ((evalConds [Cond.diaperPositive] r).isOk = true ∧
        keepB [Cond.diaperPositive] r = diaperPred1 r) ∧
      ((evalConds [Cond.diaperZeroOrNull] r).isOk = true ∧
        keepB [Cond.diaperZeroOrNull] r = diaperPred0 r) := by
    intro r hr
    cases ht : propText r "diaper_table_count" with
    | none =>
      have e1 : evalConds [Cond.diaperPositive] r = .ok none := by
        rw [evalConds_single]
        simp [evalCond, ht, castInt]
      have e0 : evalConds [Cond.diaperZeroOrNull] r = .ok (some true) := by
        rw [evalConds_single]
        simp [evalCond, ht, castInt, sOr]
      refine ⟨⟨by rw [e1]; rfl, ?_⟩, by rw [e0]; rfl, ?_⟩
      · rw [keepB_of_eval_none e1]
        simp [diaperPred1, diaperCount, ht]
      · rw [keepB_of_eval e0]
        simp [diaperPred0, diaperCount, ht]
    | some s =>
      obtain ⟨n, hpn, hn⟩ := hok r hr s ht
      have e1 : evalConds [Cond.diaperPositive] r = .ok (some (decide (0 < n))) := by
        rw [evalConds_single]
        simp [evalCond, ht, castInt, hpn]
      have e0 : evalConds [Cond.diaperZeroOrNull] r = .ok (some (decide (n = 0))) := by
        rw [evalConds_single]
        by_cases hz : n = 0 <;> simp [evalCond, ht, castInt, hpn, sOr, hz]
      refine ⟨⟨by rw [e1]; rfl, ?_⟩, by rw [e0]; rfl, ?_⟩
      · rw [keepB_of_eval e1]
        simp [diaperPred1, diaperCount, ht, hpn]
      · rw [keepB_of_eval e0]
        simp [diaperPred0, diaperCount, ht, hpn]
  refine ⟨?_, ?_, ?_⟩
  · rw [get_places_eq_of_total { has_diaper_table := some "1", include_outdated := true }
      [Cond.diaperPositive] db rfl (fun r hr => (key r hr).1.1)]
    rw [List.filter_congr (fun r hr => (key r hr).1.2)]
  · rw [get_places_eq_of_total { has_diaper_table := some "0", include_outdated := true }
      [Cond.diaperZeroOrNull] db rfl (fun r hr => (key r hr).2.1)]
    rw [List.filter_congr (fun r hr => (key r hr).2.2)]
  · intro r hr
    cases ht : propText r "diaper_table_count" with
    | none => simp [diaperPred0, diaperPred1, diaperCount, ht]
    | some s =>
      obtain ⟨n, hpn, hn⟩ := hok r hr s ht
      have hc : diaperCount r = some n := by simp [diaperCount, ht, hpn]
      by_cases hz : n = 0
      · simp [diaperPred0, diaperPred1, hc, hz]
      · have hpos : 0 < n := lt_of_le_of_ne hn (fun h => hz h.symm)
        simp [diaperPred0, diaperPred1, hc, hz, hpos]

/-- Witness for the amended C8 theorem on a store with counts 3, 0 and
missing: flag `"1"` returns exactly the count-3 row. -/
theorem diaper_flags_complement_on_nonnegative_witness :
    get_places { has_diaper_table := some "1", include_outdated := true } c8wDb
      = .ok
          { items := (c8wDb.filter diaperPred1).map normalize_place_from_db,
            count := ((c8wDb.filter diaperPred1).map normalize_place_from_db).length } :=
  (diaper_flags_complement_on_nonnegative c8wDb (by decide)).1

set_option maxRecDepth 8192 in
/-- C9 (counterexample): two criteria of the same shape (`city` present in
both, all else equal) that differ only in the city value — `""` versus
`"x"` — produce DIFFERENT SQL texts, because `if city:` treats the empty
string as absent and drops the `city = %s` condition. -/
theorem query_text_differs_for_empty_city_value :
    (build_places_query { city := some "", include_outdated := true }).map Prod.fst
      ≠ (build_places_query { city := some "x", include_outdated := true }).map Prod.fst := by
  decide

/-- C9 (amended): for criteria of the same shape — same number of category
entries, same truthiness of the city value (Python's `if city:`, under which
an empty string counts as absent), identical bbox, flags and
`includeOutdated` — the generated SQL text is identical whatever the
user-supplied category and city values are; those values appear only in the
parameter list. -/
theorem query_text_independent_of_values (c1 c2 : FilterCriteria)
    (hlen : c1.category.length = c2.category.length)
    (hcity : cityTruthy c1 = cityTruthy c2)
    (hbbox : c1.bbox = c2.bbox)
    (hdt : c1.has_diaper_table = c2.has_diaper_table)
    (hpk : c1.has_parking = c2.has_parking)
    (hio : c1.include_outdated = c2.include_outdated) :
    (build_places_query c1).map Prod.fst = (build_places_query c2).map Prod.fst := by
  obtain ⟨cat1, city1, bbox1, dt1, pk1, io1⟩ := c1
  obtain ⟨cat2, city2, bbox2, dt2, pk2, io2⟩ := c2
  dsimp only at hlen hcity hbbox hdt hpk hio
  subst hbbox
  subst hdt
  subst hpk
  subst hio
  have hB : (if cat1 = [] then ([] : List Cond) else [Cond.categoryIn cat1]).map condText
      = (if cat2 = [] then ([] : List Cond) else [Cond.categoryIn cat2]).map condText := by
    cases cat1 with
    | nil =>
      cases cat2 with
      | nil => rfl
      | cons b bs => simp at hlen
    | cons a as =>
      cases cat2 with
      | nil => simp at hlen
      | cons b bs =>
        have hl : as.length = bs.length := by simpa using hlen
        simp [condText, hl]
  have hC : ((match city1 with
        | some s => if s = "" then ([] : List Cond) else [Cond.cityEq s]
        | none => []).map condText)
      = ((match city2 with
        | some s => if s = "" then ([] : List Cond) else [Cond.cityEq s]
        | none => []).map condText) := by
    cases city1 with
    | none =>
      cases city2 with
      | none => rfl
      | some s2 =>
        simp [cityTruthy] at hcity
        simp [hcity]
    | some s1 =>
      cases city2 with
      | none =>
        simp [cityTruthy] at hcity
        simp [hcity]
      | some s2 =>
        simp [cityTruthy] at hcity
        by_cases h1 : s1 = ""
        · have h2 : s2 = "" := by simpa [h1] using hcity.symm
          simp [h1, h2]
        · have h2 : ¬s2 = "" := by
            intro h2e
            rw [h2e] at hcity
            simp at hcity
            exact h1 hcity
          simp [h1, h2, condText]
  cases bbox1 with
  | none =>
    simp [build_places_query, buildConds, Except.map]
    apply renderQuery_congr
    simp only [List.map_append]
    rw [hB, hC]
  | some s =>
    by_cases hs : s = ""
    · simp [build_places_query, buildConds, hs, Except.map]
      apply renderQuery_congr
      simp only [List.map_append]
      rw [hB, hC]
    · cases hp : parseBbox s with
      | none =>
        simp [build_places_query, buildConds, hs, hp, Except.map]
      | some v =>
        obtain ⟨x1, y1, x2, y2⟩ := v
        simp [build_places_query, buildConds, hs, hp, Except.map]
        apply renderQuery_congr
        simp only [List.map_append]
        rw [hB, hC]

/-- Witness for the amended C9 theorem: category values `["park"]` versus
`["toilet"]` and city `"a"` versus `"b"` yield the same SQL text. -/
theorem query_text_independent_of_values_witness :
    (build_places_query { category := ["park"], city := some "a" }).map Prod.fst
      = (build_places_query { category := ["toilet"], city := some "b" }).map Prod.fst :=
  query_text_independent_of_values
    { category := ["park"], city := some "a" }
    { category := ["toilet"], city := some "b" }
    rfl rfl rfl rfl rfl rfl

/-- C10 (confirmed): every district entry returned by list-districts has a
non-empty name — the Python loop `if district_name:` drops the group whose
key is the empty string — even though a row with `district = ""` passes the
SQL `properties->>'district' IS NOT NULL` condition. -/
theorem district_names_nonempty (city : String) (cat : List String) (io : Bool)
    (db : List Row) (res : DistrictsResult)
    (h : get_districts city cat io db = .ok res) :
    (∀ e ∈ res.districts, e.name ≠ "")
  ∧ (∀ r : Row, propText r "district" = some "" → districtNotNull r = true) := by
  constructor
  · intro e he
    by_cases hc : city = ""
    · rw [get_districts, if_pos hc] at h
      cases h
    · rw [get_districts, if_neg hc] at h
      cases Except.ok.inj h
      obtain ⟨d, _, hd⟩ := List.mem_filterMap.mp he
      by_cases hde : d = ""
      · rw [if_pos hde] at hd
        cases hd
      · rw [if_neg hde] at hd
        cases Option.some.inj hd
        exact hde
  · intro r hr
    rw [districtNotNull, hr]
    rfl

/-- Witness for C10 on a store holding one empty-string district and one
district `"A"`: the returned breakdown contains only `"A"`. -/
theorem district_names_nonempty_witness :
    (DistrictAggregate.mk "A" 1).name ≠ "" :=
  (district_names_nonempty "c1" [] false c10Db
      { city := "c1", districts := [DistrictAggregate.mk "A" 1] } (by decide)).1
    (DistrictAggregate.mk "A" 1) (by decide)
